import Mathlib

/-!
Shallow embedding of the order-pricing / invoice pipeline of the
`mcp_polydial_com` repository (files `app/restaurants_tools.py`,
`app/main.py`, `app/utils.py`).

Python dictionaries with optional keys are embedded as structures whose
fields are `Option`-typed; `dict.get(k, d)` becomes `Option.getD`, and a
subscript access `d[k]` that can raise `KeyError` becomes an
`Except PyError` result.  Monetary values (Python floats holding decimal
amounts) are embedded as rationals `ℚ`; Python's `round(x, 2)` (which
rounds half to even) becomes `round2` below.  Outbound network calls
(the persistence POST and the Twilio SMS dispatch) are recorded in an
explicit effect trace, and the persistence response is passed in as an
explicit argument (the response oracle).
-/

/-- Errors a pipeline function can raise.  `keyError k` embeds a Python
`KeyError` on the dictionary key `k`; `valueError` embeds `ValueError`. -/
inductive PyError where
  | keyError (key : String)
  | valueError (msg : String)
  deriving DecidableEq, Repr

/-- Rounding half to even on rationals, as CPython's `round` does on the
decimal values this pipeline handles.  The floor is computed with
`Int.fdiv` (floor division), which is exact since `q.den > 0`. -/
def roundHalfEvenInt (q : ℚ) : ℤ :=
  let f : ℤ := q.num.fdiv (q.den : ℤ)
  let r : ℚ := q - (f : ℚ)
  if r < 1/2 then f
  else if (1 : ℚ)/2 < r then f + 1
  else if f % 2 = 0 then f else f + 1

/-- Python's `round(x, 2)`: round to two decimal digits, half to even. -/
def round2 (q : ℚ) : ℚ := ((roundHalfEvenInt (q * 100) : ℤ) : ℚ) / 100

/-- Render a rational with exactly two decimal digits, as Python's
`f"{x:.2f}"` does for the decimal amounts in this pipeline. -/
def fmt2 (q : ℚ) : String :=
  let c : ℤ := roundHalfEvenInt (q * 100)
  let sign := if c < 0 then "-" else ""
  let a := c.natAbs
  let ip := a / 100
  let fp := a % 100
  sign ++ toString ip ++ "." ++ (if fp < 10 then "0" else "") ++ toString fp

/-- Render a rational like Python's `f"{x:g}"` for the quantity values in
this pipeline: an integral value prints with no fractional part, a
fractional value prints its decimal digits with trailing zeros removed
(expansion taken to six decimal digits, which is exact for the short
decimal quantities the pipeline receives). -/
def fmtG (q : ℚ) : String :=
  if q.den = 1 then toString q.num
  else
    let scaled : ℤ := roundHalfEvenInt (q * 1000000)
    let sign := if scaled < 0 then "-" else ""
    let a := scaled.natAbs
    let ip := a / 1000000
    let fp := a % 1000000
    let fs := toString fp
    let fs := String.mk (List.replicate (6 - fs.length) '0') ++ fs
    let digits := (fs.toList.reverse.dropWhile (fun c => c = '0')).reverse
    sign ++ toString ip ++ (if digits = [] then "" else "." ++ String.mk digits)

/-- Modifier dictionary, as read by `prepare_invoice_lines`
(`restaurants_tools.py` lines 141-152): every key is accessed with
`dict.get` and a default, so every field is optional. -/
structure Modifier where
  modifier_group_id : Option ℤ := none
  modifier_id : Option ℤ := none
  name : Option String := none
  price_delta : Option ℚ := none
  quantity : Option ℚ := none
  is_active : Option Bool := none
  deriving DecidableEq, Repr

/-- Placeholder for the opaque option records attached to an item
(`options`); they are never priced or rendered, only defaulted. -/
structure OptionRec where
  data : List (String × String) := []
  deriving DecidableEq, Repr

/-- Item dictionary, as read by `prepare_invoice_lines`
(`restaurants_tools.py` lines 124-129): every key is accessed with
`dict.get` and a default, so every field is optional. -/
structure Item where
  item_id : Option ℤ := none
  name : Option String := none
  base_price : Option ℚ := none
  price : Option ℚ := none
  quantity : Option ℚ := none
  note : Option String := none
  options : Option (List OptionRec) := none
  modifiers : Option (List Modifier) := none
  deriving DecidableEq, Repr

/-- Order dictionary as passed around the pipeline.  `customer_id` and
`business_id` are the client-suppliable billing identifiers that
`main.create_order` / `main.validate_order` overwrite. -/
structure OrderDict where
  call_sid : Option String := none
  language_code : Option String := none
  business_phone : Option String := none
  customer_phone : Option String := none
  items : Option (List Item) := none
  customer_id : Option ℤ := none
  business_id : Option ℤ := none
  deriving DecidableEq, Repr

/-- JSON body returned by the persistence API for
`POST /api/restaurants/create_order`: a `status` string, the stored
order, and its external identifier. -/
structure PersistResponse where
  status : String
  order : Option OrderDict := none
  externals_order_id : Option String := none
  deriving DecidableEq, Repr

/-- Outbound side effects of the pipeline: the persistence POST made by
`create_order`, and the Twilio message dispatch made by
`send_confirmation_sms`. -/
inductive Effect where
  | persistCall (order : OrderDict)
  | smsCall (body fromPhone toPhone : String)
  deriving DecidableEq, Repr

/-- Recognizer for the persistence call in an effect trace. -/
def Effect.isPersistCall : Effect → Bool
  | Effect.persistCall _ => true
  | _ => false

/-- Recognizer for the message dispatch in an effect trace. -/
def Effect.isSmsCall : Effect → Bool
  | Effect.smsCall _ _ _ => true
  | _ => false

/-- Bodies of the messages dispatched in an effect trace. -/
def sms_bodies (trace : List Effect) : List String :=
  trace.filterMap fun e =>
    match e with
    | Effect.smsCall b _ _ => some b
    | _ => none

/-- Structured content of the result that `validate_order` serializes:
`result = {"order_lines": item_lines, "grand_Total": grand_total}`
(`restaurants_tools.py` line 115).  The source then wraps this record,
JSON-serialized, inside a fixed prompt sentence; the embedding keeps the
record itself, which carries all the information of the response. -/
structure ValidateResult where
  order_lines : List String
  grand_Total : ℚ
  deriving DecidableEq, Repr

/-- Result dictionary `{"response": ...}` returned by `create_order`. -/
structure CreateResult where
  response : String
  deriving DecidableEq, Repr

namespace RestaurantTools

/-- Fixed tax rate of `prepare_invoice_lines`
(`tax_percentage = 0.09`, `restaurants_tools.py` line 123). -/
def tax_percentage : ℚ := 9/100

/-- Modifier loop of `prepare_invoice_lines` (`restaurants_tools.py`
lines 141-152): for each modifier whose `is_active` value (default
`True`) is true, append its line and accumulate
`mod_line_total = mod_qty * mod_price`; an inactive modifier is skipped
entirely.  Returns the modifier lines in order and the accumulated
modifier total. -/
def process_modifiers (mods : List Modifier) (show_prices : Bool) : List String × ℚ :=
  match mods with
  | [] => ([], 0)
  | mod :: rest =>
    let acc := process_modifiers rest show_prices
    if mod.is_active.getD true then
      let mod_qty := mod.quantity.getD 1
      let mod_price := mod.price_delta.getD 0
      let mod_name := mod.name.getD ""
      let mod_line_total := mod_qty * mod_price
      let line :=
        if show_prices then
          mod_name ++ "  " ++ fmtG mod_qty ++ "x$" ++ fmt2 mod_price ++ " = $" ++ fmt2 mod_line_total
        else
          fmtG mod_qty ++ " " ++ mod_name
      (line :: acc.1, mod_line_total + acc.2)
    else acc

/-- Body of the per-item loop of `prepare_invoice_lines`
(`restaurants_tools.py` lines 124-156): default the fields with
`dict.get`, emit the item line, the active-modifier lines, then the note
line when the note is non-empty (Python string truthiness), and return
the lines together with the unrounded
`item_total = unit_price * qty + `(active modifier totals). -/
def item_lines_and_total (item : Item) (show_prices : Bool) : List String × ℚ :=
  let name := item.name.getD "Unknown Item"
  let qty := item.quantity.getD 1
  let unit_price := item.base_price.getD (item.price.getD 0)
  let note := item.note.getD ""
  let modifiers := item.modifiers.getD []
  let base_total := unit_price * qty
  let item_line :=
    if show_prices then
      name ++ " " ++ fmtG qty ++ "x$" ++ fmt2 unit_price ++ " = $" ++ fmt2 base_total
    else
      fmtG qty ++ " " ++ name
  let pm := process_modifiers modifiers show_prices
  let note_lines := if note = "" then [] else [note]
  (item_line :: (pm.1 ++ note_lines), base_total + pm.2)

/-- `prepare_invoice_lines` (`restaurants_tools.py` lines 120-159):
returns `(lines, invoice_total, tax, grand_total)` where
`invoice_total` is the exact unrounded sum of the per-item totals,
`tax = round(invoice_total * tax_percentage, 2)` and
`grand_total = round(invoice_total + tax, 2)`.  The `lang` parameter is
accepted but, as in the source, never used. -/
def prepare_invoice_lines (items : List Item) (lang : String) (show_prices : Bool) :
    List String × ℚ × ℚ × ℚ :=
  let per := items.map fun item => item_lines_and_total item show_prices
  let lines := (per.map Prod.fst).flatten
  let invoice_total := (per.map Prod.snd).sum
  let tax := round2 (invoice_total * tax_percentage)
  let grand_total := round2 (invoice_total + tax)
  (lines, invoice_total, tax, grand_total)

/-- `validate_order` (`restaurants_tools.py` lines 111-118): reads
`order['items']` and `order['language_code']` (each a `KeyError` when
absent, in that order), prices with `prepare_invoice_lines(items,
language_code, show_prices=False)`, and returns the preview lines and
grand total.  It performs no outbound call, hence the empty effect
trace. -/
def validate_order (order : OrderDict) : Except PyError ValidateResult × List Effect :=
  match order.items with
  | none => (Except.error (PyError.keyError "items"), [])
  | some items =>
    match order.language_code with
    | none => (Except.error (PyError.keyError "language_code"), [])
    | some language_code =>
      let r := prepare_invoice_lines items language_code false
      (Except.ok { order_lines := r.1, grand_Total := r.2.2.2 }, [])

/-- Label and line assembly of `generate_detailed_sms_invoice`
(`restaurants_tools.py` lines 161-187) before the final
`"\n".join(lines)`: localized header with the external order id, the
`prepare_invoice_lines` output, the totals block when prices are shown,
the grand total, and a localized closing.  The source's Python defaults
are `lang="en"`, `show_prices=True`. -/
def sms_invoice_lines (order : PersistResponse) (lang : String) (show_prices : Bool) :
    List String :=
  let order_data := order.order.getD {}
  let items := order_data.items.getD []
  let thank_you := if lang = "ar" then "شكرا لطلبك من مصراوي" else "Thank you for your order from Masrawy"
  let order_id_label := if lang = "ar" then "رقم الطلب" else "Order ID"
  let total_label := if lang = "ar" then "المجموع" else "Total"
  let tax_label := if lang = "ar" then "الضريبة" else "Tax"
  let grand_total_label := if lang = "ar" then "الاجمالي" else "Grand Total"
  let r := prepare_invoice_lines items lang show_prices
  [thank_you, order_id_label ++ ": " ++ order.externals_order_id.getD "", "\n"]
    ++ r.1
    ++ (if show_prices then
          [total_label ++ ": $" ++ fmt2 r.2.1, tax_label ++ ": $" ++ fmt2 r.2.2.1]
        else [])
    ++ [grand_total_label ++ ": $" ++ fmt2 r.2.2.2]
    ++ [if lang = "ar" then "شكراً لطلبك!" else "Thank you for your order!"]

/-- `generate_detailed_sms_invoice` (`restaurants_tools.py` lines
161-187): the newline-joined invoice text. -/
def generate_detailed_sms_invoice (order : PersistResponse) (lang : String) (show_prices : Bool) :
    String :=
  "\n".intercalate (sms_invoice_lines order lang show_prices)

/-- `create_order` (`restaurants_tools.py` lines 84-109): POST the order
to the persistence API (the response is the `response` argument, the
oracle for that single call); when `res['status'] == "success"`, render
the receipt with `generate_detailed_sms_invoice(res)` — the source
passes no `lang` or `show_prices`, so the Python defaults `"en"` and
`True` apply — and dispatch it from `order['business_phone']` to
`order['customer_phone']` (each a `KeyError` when absent); on any other
status report a creation failure with no dispatch. -/
def create_order (order : OrderDict) (response : PersistResponse) :
    Except PyError CreateResult × List Effect :=
  let effects := [Effect.persistCall order]
  if response.status = "success" then
    let message_body := generate_detailed_sms_invoice response "en" true
    match order.business_phone, order.customer_phone with
    | none, _ => (Except.error (PyError.keyError "business_phone"), effects)
    | some _, none => (Except.error (PyError.keyError "customer_phone"), effects)
    | some bp, some cp =>
      (Except.ok { response := "Order created successfully" },
       effects ++ [Effect.smsCall message_body bp cp])
  else
    (Except.ok { response := "Order creation Failed" }, effects)

end RestaurantTools

namespace Main

/-- Per-item normalization step of `main.create_order` /
`main.validate_order` (`main.py` lines 224-227 and 253-256):
`if 'options' not in item: item['options'] = []`. -/
def ensure_options (item : Item) : Item :=
  match item.options with
  | none => { item with options := some [] }
  | some _ => item

/-- Preprocessing block shared verbatim by `main.create_order` and
`main.validate_order` (`main.py` lines 217-227 and 246-256): overwrite
`customer_id` with the session-resolved 33 and `business_id` with 97,
then default each item's missing `options` to an empty list. -/
def normalize_order_dict (d : OrderDict) : OrderDict :=
  { d with
    customer_id := some 33
    business_id := some 97
    items :=
      match d.items with
      | none => none
      | some items => some (items.map ensure_options) }

/-- `main.create_order` (`main.py` lines 176-229): normalize the order
dictionary, then forward it to `restaurant_tools.create_order`. -/
def create_order (d : OrderDict) (response : PersistResponse) :
    Except PyError CreateResult × List Effect :=
  RestaurantTools.create_order (normalize_order_dict d) response

/-- `main.validate_order` (`main.py` lines 232-259): normalize the order
dictionary, then forward it to `restaurant_tools.validate_order`. -/
def validate_order (d : OrderDict) : Except PyError ValidateResult × List Effect :=
  RestaurantTools.validate_order (normalize_order_dict d)

end Main

/-- Claims of the signed bearer token built by `utils.generate_jwt_token`
(`utils.py` lines 42-50). -/
structure JwtPayload where
  user_id : ℤ
  email : String
  business_id : ℤ
  role : String
  exp : ℤ
  iat : ℤ
  nbf : ℤ
  deriving DecidableEq, Repr

namespace Utils

/-- Default of the `validity` parameter of `generate_jwt_token`
(`utils.py` line 13: `validity=8640`). -/
def jwt_default_validity : ℤ := 8640

/-- `utils.generate_jwt_token` (`utils.py` lines 13-63): the ambient
environment secret and clock are passed explicitly.  When the signing
secret is unset it raises `ValueError`; otherwise the token's claims are
the fixed service identity (`user_id = 999`, a fixed email,
`business_id = 999`, `role = "admin"`) with `iat = now - 60`,
`nbf = iat` and `exp = now + validity`. -/
def generate_jwt_token (secret : Option String) (now : ℤ) (validity : ℤ) :
    Except PyError JwtPayload :=
  match secret with
  | none => Except.error (PyError.valueError "JWT_SECRET_KEY is not set in environment variables")
  | some _ =>
    let iat := now - 60
    Except.ok
      { user_id := 999
        email := "hanyelgaml@ideationmax.com"
        business_id := 999
        role := "admin"
        exp := now + validity
        iat := iat
        nbf := iat }

end Utils

/-!
Spec-side definitions and helper lemmas.

`spec_item_contribution` and `spec_subtotal` are written from the
specification's wording of the subtotal ("the exact (unrounded) sum of
item and active-modifier contributions", §4.2/§8), to be compared with
the code's accumulation in `prepare_invoice_lines`.
-/

/-- Specification's per-item contribution: `unit_price * quantity` plus
`price_delta * quantity` over the modifiers whose `is_active` is true
(default true when unset). -/
def spec_item_contribution (item : Item) : ℚ :=
  (item.base_price.getD (item.price.getD 0)) * (item.quantity.getD 1)
    + ((item.modifiers.getD []).map fun m =>
        if m.is_active.getD true then (m.price_delta.getD 0) * (m.quantity.getD 1) else 0).sum

/-- Specification's subtotal: the exact, unrounded sum of the per-item
contributions. -/
def spec_subtotal (items : List Item) : ℚ :=
  (items.map spec_item_contribution).sum

/-- Replace an item's modifier list by its active modifiers only. -/
def drop_inactive (item : Item) : Item :=
  { item with
    modifiers := some ((item.modifiers.getD []).filter fun m => m.is_active.getD true) }

theorem roundHalfEvenInt_intCast (n : ℤ) : roundHalfEvenInt (n : ℚ) = n := by
  unfold roundHalfEvenInt
  norm_num [Rat.num_intCast, Rat.den_intCast, Int.fdiv_one]

theorem round2_of_mul_hundred (q : ℚ) (n : ℤ) (h : q * 100 = (n : ℚ)) :
    round2 q = (n : ℚ) / 100 := by
  rw [round2, h, roundHalfEvenInt_intCast]

theorem round2_zero : round2 0 = 0 := by
  have h := round2_of_mul_hundred 0 0 (by norm_num)
  simpa using h

theorem process_modifiers_snd (mods : List Modifier) (sp : Bool) :
    (RestaurantTools.process_modifiers mods sp).2
      = (mods.map fun m =>
          if m.is_active.getD true then (m.price_delta.getD 0) * (m.quantity.getD 1) else 0).sum := by
  induction mods with
  | nil => simp [RestaurantTools.process_modifiers]
  | cons m rest ih =>
    by_cases h : m.is_active.getD true <;>
      simp [RestaurantTools.process_modifiers, h, ih, mul_comm]

theorem item_lines_and_total_snd (item : Item) (sp : Bool) :
    (RestaurantTools.item_lines_and_total item sp).2 = spec_item_contribution item := by
  simp [RestaurantTools.item_lines_and_total, spec_item_contribution, process_modifiers_snd]

theorem prepare_invoice_lines_eq (items : List Item) (lang : String) (sp : Bool) :
    RestaurantTools.prepare_invoice_lines items lang sp
      = ((items.map fun it => (RestaurantTools.item_lines_and_total it sp).1).flatten,
         spec_subtotal items,
         round2 (spec_subtotal items * RestaurantTools.tax_percentage),
         round2 (spec_subtotal items
                  + round2 (spec_subtotal items * RestaurantTools.tax_percentage))) := by
  have hsnd : (Prod.snd ∘ fun it => RestaurantTools.item_lines_and_total it sp)
      = spec_item_contribution := funext fun it => item_lines_and_total_snd it sp
  simp only [RestaurantTools.prepare_invoice_lines, spec_subtotal, List.map_map]
  rw [hsnd]
  rfl

theorem process_modifiers_filter_active (mods : List Modifier) (sp : Bool) :
    RestaurantTools.process_modifiers (mods.filter fun m => m.is_active.getD true) sp
      = RestaurantTools.process_modifiers mods sp := by
  induction mods with
  | nil => rfl
  | cons m rest ih =>
    by_cases h : m.is_active.getD true <;>
      simp [List.filter_cons, RestaurantTools.process_modifiers, h, ih]

theorem item_lines_and_total_drop (item : Item) (sp : Bool) :
    RestaurantTools.item_lines_and_total (drop_inactive item) sp
      = RestaurantTools.item_lines_and_total item sp := by
  obtain ⟨iid, nm, bp, pr, q, nt, op, mods⟩ := item
  simp [RestaurantTools.item_lines_and_total, drop_inactive, process_modifiers_filter_active]

theorem prepare_drop_inactive (items : List Item) (lang : String) (sp : Bool) :
    RestaurantTools.prepare_invoice_lines (items.map drop_inactive) lang sp
      = RestaurantTools.prepare_invoice_lines items lang sp := by
  have h : (fun it => RestaurantTools.item_lines_and_total it sp) ∘ drop_inactive
      = fun it => RestaurantTools.item_lines_and_total it sp :=
    funext fun it => item_lines_and_total_drop it sp
  simp only [RestaurantTools.prepare_invoice_lines, List.map_map, h]

/-- C1: for every order, `prepare_invoice_lines` returns
`tax = round(subtotal * 0.09, 2)` and
`grand_total = round(subtotal + tax, 2)`, where the subtotal is the
exact unrounded sum of `base_price * quantity` plus
`price_delta * quantity` over active modifiers, with no intermediate
rounding; and on the order with one item (base_price 10.00, quantity 2)
and one active modifier (price_delta 1.50, quantity 2) the subtotal is
23.00, the tax 2.07 and the grand total 25.07. -/
theorem claim_C1 :
    (∀ (items : List Item) (lang : String) (sp : Bool),
        (RestaurantTools.prepare_invoice_lines items lang sp).2.1 = spec_subtotal items
      ∧ (RestaurantTools.prepare_invoice_lines items lang sp).2.2.1
          = round2 (spec_subtotal items * (9/100))
      ∧ (RestaurantTools.prepare_invoice_lines items lang sp).2.2.2
          = round2 ((RestaurantTools.prepare_invoice_lines items lang sp).2.1
                      + (RestaurantTools.prepare_invoice_lines items lang sp).2.2.1))
  ∧ (RestaurantTools.prepare_invoice_lines
        [{ base_price := some 10, quantity := some 2,
           modifiers := some [{ price_delta := some (3/2), quantity := some 2,
                                is_active := some true }] }] "en" true).2
      = (23, 207/100, 2507/100) := by
  constructor
  · intro items lang sp
    rw [prepare_invoice_lines_eq]
    exact ⟨rfl, rfl, rfl⟩
  · rw [prepare_invoice_lines_eq]
    have hS : spec_subtotal
        [{ base_price := some 10, quantity := some 2,
           modifiers := some [{ price_delta := some (3/2), quantity := some 2,
                                is_active := some true }] }] = 23 := by
      norm_num [spec_subtotal, spec_item_contribution]
    rw [hS]
    have ht : round2 (23 * RestaurantTools.tax_percentage) = 207/100 := by
      rw [round2_of_mul_hundred _ 207 (by norm_num [RestaurantTools.tax_percentage])]
      norm_num
    rw [ht]
    have hg : round2 (23 + 207/100) = 2507/100 := by
      rw [round2_of_mul_hundred _ 2507 (by norm_num)]
      norm_num
    rw [hg]

/-- C2: an inactive modifier (`is_active = false`) contributes nothing
to the rendered lines, the item totals, the subtotal, the tax or the
grand total — pricing an order equals pricing it with every inactive
modifier removed, whatever their price deltas and quantities — and a
modifier with `is_active` unset is processed exactly as an active
one. -/
theorem claim_C2 :
    (∀ (items : List Item) (lang : String) (sp : Bool),
        RestaurantTools.prepare_invoice_lines (items.map drop_inactive) lang sp
          = RestaurantTools.prepare_invoice_lines items lang sp)
  ∧ (∀ (m : Modifier) (sp : Bool),
        RestaurantTools.process_modifiers [{ m with is_active := some false }] sp = ([], 0))
  ∧ (∀ (m : Modifier) (sp : Bool),
        RestaurantTools.process_modifiers [{ m with is_active := none }] sp
          = RestaurantTools.process_modifiers [{ m with is_active := some true }] sp) :=
  ⟨prepare_drop_inactive, fun _ _ => rfl, fun _ _ => rfl⟩

theorem prepare_invoice_lines_nil (lang : String) (sp : Bool) :
    RestaurantTools.prepare_invoice_lines [] lang sp = ([], 0, 0, 0) := by
  simp [prepare_invoice_lines_eq, spec_subtotal, round2_zero]

/-- C3 counterexample: `validate_order` on an order whose `items` list
is empty does not fail — no `InvalidOrderError` (or any error) is
raised; it returns a normal preview result with no lines and a grand
total of 0. -/
theorem claim_C3_counterexample :
    (RestaurantTools.validate_order { language_code := some "en", items := some [] }).1
      = Except.ok { order_lines := [], grand_Total := 0 } := by
  have h := prepare_invoice_lines_nil "en" false
  simp [RestaurantTools.validate_order, h]

/-- C3 amended: the pricing code rejects nothing — `validate_order`
succeeds on every order that has `items` and `language_code` keys, an
empty `items` list prices to no lines, subtotal 0, tax 0 and grand
total 0, and an item lacking both `base_price` and `price` is priced
with unit price 0 (its total is just its active-modifier total) rather
than raising an error. -/
theorem claim_C3_amended :
    (∀ (d : OrderDict) (items : List Item) (lc : String),
        ∃ r, (RestaurantTools.validate_order
                { d with items := some items, language_code := some lc }).1 = Except.ok r)
  ∧ (∀ (lang : String) (sp : Bool),
        RestaurantTools.prepare_invoice_lines [] lang sp = ([], 0, 0, 0))
  ∧ (∀ (item : Item) (sp : Bool),
        (RestaurantTools.item_lines_and_total { item with base_price := none, price := none } sp).2
          = (RestaurantTools.process_modifiers (item.modifiers.getD []) sp).2) := by
  refine ⟨fun d items lc => ⟨_, rfl⟩, prepare_invoice_lines_nil, fun item sp => ?_⟩
  simp [RestaurantTools.item_lines_and_total]

/-- C4: the order forwarded downstream by `main.create_order` and
`main.validate_order` is identical for any two payloads differing only
in their `customer_id` and `business_id` fields: both fields are
discarded and overwritten with the call-session's resolved identifiers
(33 and 97) before any downstream call. -/
theorem claim_C4 (d : OrderDict) (resp : PersistResponse) (c1 b1 c2 b2 : Option ℤ) :
    Main.normalize_order_dict { d with customer_id := c1, business_id := b1 }
      = Main.normalize_order_dict { d with customer_id := c2, business_id := b2 }
  ∧ (Main.normalize_order_dict d).customer_id = some 33
  ∧ (Main.normalize_order_dict d).business_id = some 97
  ∧ Main.create_order { d with customer_id := c1, business_id := b1 } resp
      = Main.create_order { d with customer_id := c2, business_id := b2 } resp
  ∧ Main.validate_order { d with customer_id := c1, business_id := b1 }
      = Main.validate_order { d with customer_id := c2, business_id := b2 } :=
  ⟨rfl, rfl, rfl, rfl, rfl⟩

/-- C5: every `create_order` invocation makes exactly one persistence
call; the message dispatch happens exactly once when the persistence
status is `"success"` (and the order carries the two phone fields the
dispatch reads), and on any non-success status `create_order` reports a
creation failure and dispatches nothing. -/
theorem claim_C5 (d : OrderDict) (resp : PersistResponse) :
    (RestaurantTools.create_order d resp).2.countP Effect.isPersistCall = 1
  ∧ (RestaurantTools.create_order d resp).2.countP Effect.isSmsCall
      = (if resp.status = "success" ∧ d.business_phone.isSome = true
            ∧ d.customer_phone.isSome = true then 1 else 0)
  ∧ (resp.status ≠ "success" →
      (RestaurantTools.create_order d resp).1 = Except.ok { response := "Order creation Failed" }
      ∧ (RestaurantTools.create_order d resp).2.countP Effect.isSmsCall = 0) := by
  refine ⟨?_, ?_, fun hns => ?_⟩
  · by_cases hs : resp.status = "success" <;>
      cases hbp : d.business_phone <;> cases hcp : d.customer_phone <;>
        simp [RestaurantTools.create_order, hs, hbp, hcp, Effect.isPersistCall,
          Effect.isSmsCall, List.countP_cons, List.countP_nil]
  · by_cases hs : resp.status = "success" <;>
      cases hbp : d.business_phone <;> cases hcp : d.customer_phone <;>
        simp [RestaurantTools.create_order, hs, hbp, hcp, Effect.isPersistCall,
          Effect.isSmsCall, List.countP_cons, List.countP_nil]
  · constructor <;>
      simp [RestaurantTools.create_order, hns, Effect.isSmsCall,
        List.countP_cons, List.countP_nil]

/-- C5 witness: on a concrete order and a persistence response with a
non-success status, `create_order` reports the creation failure and
dispatches no message. -/
theorem claim_C5_witness :
    (RestaurantTools.create_order {} { status := "failed" }).1
        = Except.ok { response := "Order creation Failed" }
    ∧ (RestaurantTools.create_order {} { status := "failed" }).2.countP Effect.isSmsCall = 0 :=
  (claim_C5 {} { status := "failed" }).2.2 (by decide)

/-- C6: `validate_order` (both the tool wrapper in `main.py` and the
underlying `restaurant_tools.validate_order`) performs no persistence
call and no message dispatch on any input: its effect trace is empty. -/
theorem claim_C6 :
    (∀ d : OrderDict, (RestaurantTools.validate_order d).2 = [])
  ∧ (∀ d : OrderDict, (Main.validate_order d).2 = []) := by
  constructor <;> intro d <;>
    cases hi : d.items <;> cases hl : d.language_code <;>
      simp [RestaurantTools.validate_order, Main.validate_order, Main.normalize_order_dict,
        hi, hl]

theorem ensure_options_idem (item : Item) :
    Main.ensure_options (Main.ensure_options item) = Main.ensure_options item := by
  cases h : item.options <;> simp [Main.ensure_options, h]

/-- C7: normalization maps an item with no `options` field to
`options = []` and never fails; an item with no `note` field is treated
by the pricing/rendering code exactly as one with `note = ""`; and
normalizing an already-normalized order yields the same order
(idempotence). -/
theorem claim_C7 :
    (∀ item : Item, (Main.ensure_options { item with options := none }).options = some [])
  ∧ (∀ item : Item, (Main.ensure_options item).options = some (item.options.getD []))
  ∧ (∀ (item : Item) (sp : Bool),
        RestaurantTools.item_lines_and_total { item with note := none } sp
          = RestaurantTools.item_lines_and_total { item with note := some "" } sp)
  ∧ (∀ d : OrderDict,
        Main.normalize_order_dict (Main.normalize_order_dict d)
          = Main.normalize_order_dict d) := by
  refine ⟨fun item => rfl, fun item => ?_, fun item sp => rfl, fun d => ?_⟩
  · cases h : item.options <;> simp [Main.ensure_options, h]
  · obtain ⟨cs, lc, bp, cp, its, ci, bi⟩ := d
    cases its <;>
      simp [Main.normalize_order_dict, List.map_map, Function.comp, ensure_options_idem]

/-- C8: `validate_order` on a payload with no `items` key fails with
the shape-violation error (the spec's `MalformedOrderError`, realized in
the code as the `KeyError` on `'items'`), both through the `main.py`
wrapper and in `restaurant_tools.validate_order` itself. -/
theorem claim_C8 (d : OrderDict) :
    (RestaurantTools.validate_order { d with items := none }).1
        = Except.error (PyError.keyError "items")
  ∧ (Main.validate_order { d with items := none }).1
        = Except.error (PyError.keyError "items") :=
  ⟨rfl, rfl⟩

/-- C9: a token issued at time `now` with validity `v` carries
`issued_at = now - 60`, `not_before = issued_at`, `expiry = now + v`,
and the fixed service identity (`user_id = 999`, fixed email,
`business_id = 999`, `role = "admin"`) independent of any request; the
default validity is 8640 seconds. -/
theorem claim_C9 (s : String) (now v : ℤ) :
    Utils.generate_jwt_token (some s) now v
      = Except.ok { user_id := 999, email := "hanyelgaml@ideationmax.com", business_id := 999,
                    role := "admin", exp := now + v, iat := now - 60, nbf := now - 60 }
  ∧ Utils.jwt_default_validity = 8640 :=
  ⟨rfl, rfl⟩

theorem sms_bodies_create_order (d : OrderDict) (resp : PersistResponse) :
    sms_bodies (RestaurantTools.create_order d resp).2
      = (if resp.status = "success" ∧ d.business_phone.isSome = true
            ∧ d.customer_phone.isSome = true
         then [RestaurantTools.generate_detailed_sms_invoice resp "en" true] else []) := by
  by_cases hs : resp.status = "success" <;>
    cases hbp : d.business_phone <;> cases hcp : d.customer_phone <;>
      simp [RestaurantTools.create_order, sms_bodies, hs, hbp, hcp]

/-- C10: every message body dispatched by `create_order` is the receipt
rendered with the default locale `"en"` — `create_order` does not pass
the order's `language_code` to the formatter, so the body is independent
of it — and the `"en"` rendering opens with the English thank-you label,
never the Arabic translation. -/
theorem claim_C10 (d : OrderDict) (resp : PersistResponse) :
    sms_bodies (RestaurantTools.create_order d resp).2
      = (if resp.status = "success" ∧ d.business_phone.isSome = true
            ∧ d.customer_phone.isSome = true
         then [RestaurantTools.generate_detailed_sms_invoice resp "en" true] else [])
  ∧ (∀ l1 l2 : Option String,
        sms_bodies (RestaurantTools.create_order { d with language_code := l1 } resp).2
          = sms_bodies (RestaurantTools.create_order { d with language_code := l2 } resp).2)
  ∧ (RestaurantTools.sms_invoice_lines resp "en" true).head?
      = some "Thank you for your order from Masrawy" := by
  refine ⟨sms_bodies_create_order d resp, fun l1 l2 => ?_, rfl⟩
  rw [sms_bodies_create_order, sms_bodies_create_order]
